import Mathlib

/-!
Shallow embedding of the functional core of the pms-lite dashboard
(src/app/dashboard/page.tsx).  The source file contains two
near-duplicate iterations of the same page, separated by a document
marker: the first spans lines 1-592 and the second lines 592-1028.
They are embedded here as namespaces `V1` and `V2`.

Modelling conventions:
 - JavaScript numbers are idealised as `JsNum` (NaN, signed infinity,
   or an exact rational); the claims under study never exercise
   floating-point rounding.
 - Raw Firestore document field values are `JsVal` (string, number,
   boolean, null, undefined); a missing field is `undefined`.
 - Each async handler is split into the synchronous part that runs
   before the `await` of the remote call and the part that runs when
   the remote call resolves; a handler takes the remote outcome as an
   explicit argument and returns the final component state together
   with the list of external calls it issued.
 - React `useState` setters become explicit record updates on an
   `AppState` structure whose fields mirror the component state hooks.
-/

/-- Model of a JavaScript number: NaN, an infinity (`inf true` is
positive infinity), or a finite value idealised as an exact rational. -/
inductive JsNum where
  | nan : JsNum
  | inf : Bool → JsNum
  | fin : ℚ → JsNum
deriving DecidableEq

/-- `Number.isFinite`. -/
def JsNum.isFinite : JsNum → Bool
  | .fin _ => true
  | _ => false

/-- JavaScript `x >= 0` (false on NaN). -/
def JsNum.ge0 : JsNum → Bool
  | .fin q => decide (0 ≤ q)
  | .inf b => b
  | .nan => false

/-- JavaScript `x < 0` (false on NaN). -/
def JsNum.lt0 : JsNum → Bool
  | .fin q => decide (q < 0)
  | .inf b => !b
  | .nan => false

/-- Model of a JavaScript value as it can appear in a raw document
field or a form field.  A missing field reads as `vUndef`. -/
inductive JsVal where
  | vStr : String → JsVal
  | vNum : JsNum → JsVal
  | vBool : Bool → JsVal
  | vNull : JsVal
  | vUndef : JsVal
deriving DecidableEq

/-- Characters removed by JavaScript `String.prototype.trim` (ASCII
whitespace; the exotic Unicode space characters are not modelled). -/
def jsWs (c : Char) : Bool :=
  c == ' ' || c == '\t' || c == '\n' || c == '\r' || c == '\x0b' || c == '\x0c'

/-- Drop leading and trailing whitespace from a character list. -/
def trimChars (cs : List Char) : List Char :=
  ((cs.dropWhile jsWs).reverse.dropWhile jsWs).reverse

/-- JavaScript `s.trim()`. -/
def jsTrim (s : String) : String :=
  String.mk (trimChars s.toList)

/-- All characters are decimal digits. -/
def allDigits (cs : List Char) : Bool := cs.all Char.isDigit

/-- Value of a list of decimal digits. -/
def digitsVal (cs : List Char) : ℕ :=
  cs.foldl (fun a c => a * 10 + (c.toNat - 48)) 0

/-- Split a list at the first character satisfying `p`; returns the
part before it and, if found, the part after it. -/
def splitFirst (p : Char → Bool) : List Char → List Char × Option (List Char)
  | [] => ([], none)
  | c :: cs =>
    if p c then ([], some cs)
    else
      let r := splitFirst p cs
      (c :: r.1, r.2)

/-- Strip an optional leading sign; returns whether it was `-`. -/
def splitSign : List Char → Bool × List Char
  | '-' :: cs => (true, cs)
  | '+' :: cs => (false, cs)
  | cs => (false, cs)

/-- Parse an unsigned decimal mantissa (`digits`, `digits.digits`,
`.digits` or `digits.`). -/
def parseMantissa (cs : List Char) : Option ℚ :=
  match splitFirst (fun c => c == '.') cs with
  | (ip, none) =>
    if !ip.isEmpty && allDigits ip then some (digitsVal ip) else none
  | (ip, some fp) =>
    if allDigits ip && allDigits fp && (!ip.isEmpty || !fp.isEmpty) then
      some ((digitsVal ip : ℚ) + (digitsVal fp : ℚ) / ((10 : ℚ) ^ fp.length))
    else none

/-- Parse an exponent part (optionally signed digits). -/
def parseExpPart (cs : List Char) : Option ℤ :=
  let r := splitSign cs
  if !r.2.isEmpty && allDigits r.2 then
    some (if r.1 then -(digitsVal r.2 : ℤ) else (digitsVal r.2 : ℤ))
  else none

/-- JavaScript string-to-number coercion (`Number(s)` on a string):
trimmed empty string is `0`, `Infinity` with optional sign, otherwise a
signed decimal literal with optional fraction and exponent; anything
else is NaN.  (Hex, octal and binary literals are not modelled and
coerce to NaN here; no claim exercises them.) -/
def strToNumber (s : String) : JsNum :=
  let t := trimChars s.toList
  if t.isEmpty then .fin 0
  else
    let r := splitSign t
    let sgn : ℚ → ℚ := fun q => if r.1 then -q else q
    if r.2 = "Infinity".toList then .inf (!r.1)
    else
      match splitFirst (fun c => c == 'e' || c == 'E') r.2 with
      | (m, none) =>
        match parseMantissa m with
        | some q => .fin (sgn q)
        | none => .nan
      | (m, some e) =>
        match parseMantissa m, parseExpPart e with
        | some q, some z => .fin (sgn q * (10 : ℚ) ^ z)
        | _, _ => .nan

/-- JavaScript `Number(v)` on a general value. -/
def toNumber : JsVal → JsNum
  | .vStr s => strToNumber s
  | .vNum n => n
  | .vBool b => .fin (if b then 1 else 0)
  | .vNull => .fin 0
  | .vUndef => .nan

/-- JavaScript nullish coalescing `v ?? d`. -/
def nullish (v d : JsVal) : JsVal :=
  match v with
  | .vNull => d
  | .vUndef => d
  | _ => v

/-- The closed `PropertyStatus` union type of the page
(`"Available" | "Booked"`). -/
inductive PropertyStatus where
  | Available : PropertyStatus
  | Booked : PropertyStatus
deriving DecidableEq

/-- The runtime string of a `PropertyStatus` value. -/
def PropertyStatus.toStr : PropertyStatus → String
  | .Available => "Available"
  | .Booked => "Booked"

/-- A raw Firestore document as returned by `getDocs` on the
`properties` collection: the id plus untrusted field values (a missing
field is `vUndef`). -/
structure RawDoc where
  id : String
  name : JsVal
  pricePerNight : JsVal
  status : JsVal
deriving DecidableEq

/-- An external call issued by a handler: a Firestore read, a Firestore
insert (variant 1 additionally sends a server `createdAt` timestamp),
a Firestore delete, a Firebase sign-out, or a router navigation. -/
inductive ExtCall where
  | listAll : ExtCall
  | insert : String → JsNum → String → Bool → ExtCall
  | delete : String → ExtCall
  | signOutCall : ExtCall
  | navigate : String → ExtCall
deriving DecidableEq

namespace V1

/-- The `Property` interface of the first page variant (lines 11-16).
`status` is a closed enum because the decoder (lines 57-59) only ever
produces `Available` or `Booked`. -/
structure Property where
  id : String
  name : String
  pricePerNight : JsNum
  status : PropertyStatus
deriving DecidableEq

/-- The component state of the first variant: one field per `useState`
hook (lines 22-32).  `lastUpdated` records only whether a timestamp has
been stamped (the wall-clock string itself is not modelled). -/
structure AppState where
  properties : List Property
  fetching : Bool
  modalOpen : Bool
  formName : String
  formPrice : String
  formStatus : PropertyStatus
  saving : Bool
  error : Option String
  deleteConfirmId : Option String
  deletingId : Option String
  lastUpdated : Bool
deriving DecidableEq

/-- The initial component state (the `useState` defaults). -/
def initState : AppState :=
  { properties := []
    fetching := true
    modalOpen := false
    formName := ""
    formPrice := ""
    formStatus := .Available
    saving := false
    error := none
    deleteConfirmId := none
    deletingId := none
    lastUpdated := false }

/-- Defensive decoding of one raw document (lines 51-67): a non-string
name is replaced by `"Untitled"`, the price is coerced with `Number`
and clamped to `0` unless it is finite and `>= 0`, and any status other
than the exact string `"Booked"` decodes to `Available`. -/
def decodeDoc (d : RawDoc) : Property :=
  let name :=
    match d.name with
    | JsVal.vStr s => jsTrim s
    | _ => "Untitled"
  let priceRaw := toNumber d.pricePerNight
  let price :=
    if priceRaw.isFinite = true ∧ priceRaw.ge0 = true then priceRaw
    else JsNum.fin 0
  let status :=
    if d.status = JsVal.vStr "Booked" then PropertyStatus.Booked
    else PropertyStatus.Available
  { id := d.id, name := name, pricePerNight := price, status := status }

/-- The synchronous prefix of `fetchProperties` (lines 46-47), run
before the `getDocs` call is awaited. -/
def fetchStart (s : AppState) : AppState :=
  { s with fetching := true, error := none }

/-- The continuation of `fetchProperties` once `getDocs` resolves
(lines 50-76): on success the decoded documents replace `properties`
wholesale and the timestamp is stamped; on failure an error message is
set; `fetching` clears in the `finally` block either way. -/
def fetchRes (s : AppState) (res : Except Unit (List RawDoc)) : AppState :=
  match res with
  | .ok ds =>
    { s with properties := ds.map decodeDoc, lastUpdated := true, fetching := false }
  | .error _ =>
    { s with error := some "Could not load properties. Please try again later."
             fetching := false }

/-- `fetchProperties` (lines 45-77) as a whole: final state and issued
store calls, given the outcome of the `getDocs` call. -/
def fetchProperties (s : AppState) (res : Except Unit (List RawDoc)) :
    AppState × List ExtCall :=
  (fetchRes (fetchStart s) res, [ExtCall.listAll])

/-- `handleLogout` (lines 92-99): `signOut` is awaited inside a `try`;
on success the router navigates to `/login`; the `catch` only logs.
The component state (in particular `properties`) is never touched. -/
def handleLogout (s : AppState) (ok : Bool) : AppState × List ExtCall :=
  if ok then (s, [ExtCall.signOutCall, ExtCall.navigate "/login"])
  else (s, [ExtCall.signOutCall])

/-- `handleAddProperty` (lines 108-151).  Validation runs before any
remote call: an empty trimmed name, or a price that is the empty
string, not finite, or negative, sets an error message and returns.
On valid input `addDoc` is issued with the trimmed name, the coerced
price, the status and a server timestamp; on success the new record is
appended to the end of `properties` and the form is reset; on failure
only the error message is set. -/
def handleAddProperty (s : AppState) (res : Except Unit String) :
    AppState × List ExtCall :=
  if jsTrim s.formName = "" then
    ({ s with error := some "Property name is required." }, [])
  else
    let priceNum := strToNumber s.formPrice
    if s.formPrice = "" ∨ priceNum.isFinite = false ∨ priceNum.lt0 = true then
      ({ s with error := some "Please enter a valid non-negative price." }, [])
    else
      let s1 := { s with saving := true, error := none }
      let call := ExtCall.insert (jsTrim s.formName) priceNum s.formStatus.toStr true
      match res with
      | .ok newId =>
        ({ s1 with
            properties := s1.properties ++
              [{ id := newId, name := jsTrim s.formName
                 pricePerNight := priceNum, status := s.formStatus }]
            lastUpdated := true
            modalOpen := false
            formName := ""
            formPrice := ""
            formStatus := .Available
            error := none
            saving := false }, [call])
      | .error _ =>
        ({ s1 with error := some "Failed to save property. Please try again."
                   saving := false }, [call])

/-- The synchronous prefix of `handleDeleteProperty` (lines 154-155),
run after confirmation but before the `deleteDoc` call resolves: the
per-id deleting marker is set and the error cleared; `properties` is
untouched.  This is the component state observable while the remote
delete is in flight. -/
def deleteStart (s : AppState) (id : String) : AppState :=
  { s with deletingId := some id, error := none }

/-- The continuation of `handleDeleteProperty` once `deleteDoc`
resolves (lines 157-167): only on success is the record filtered out of
`properties`; on failure an error message is set; the `finally` block
clears `deletingId` and `deleteConfirmId` in both cases. -/
def deleteRes (s : AppState) (id : String) (ok : Bool) : AppState :=
  if ok then
    { s with properties := s.properties.filter (fun p => p.id != id)
             lastUpdated := true
             deletingId := none
             deleteConfirmId := none }
  else
    { s with error := some "Could not delete property. Please try again."
             deletingId := none
             deleteConfirmId := none }

/-- `handleDeleteProperty` (lines 153-168) as a whole: the confirmed
delete of `id`, given the outcome of the `deleteDoc` call. -/
def handleDeleteProperty (s : AppState) (id : String) (ok : Bool) :
    AppState × List ExtCall :=
  (deleteRes (deleteStart s id) id ok, [ExtCall.delete id])

/-- The "request" phase of a delete (line 399): the per-row Delete
button only records the pending id; no state beyond `deleteConfirmId`
changes and no store call is issued. -/
def requestDelete (s : AppState) (id : String) : AppState × List ExtCall :=
  ({ s with deleteConfirmId := some id }, [])

/-- The "cancel" action of the confirmation modal (line 453). -/
def cancelDelete (s : AppState) : AppState × List ExtCall :=
  ({ s with deleteConfirmId := none }, [])

/-- `totalProperties` (line 82). -/
def totalProperties (l : List Property) : ℕ := l.length

/-- `availableCount` (lines 83-86). -/
def availableCount (l : List Property) : ℕ :=
  (l.filter (fun p => p.status == PropertyStatus.Available)).length

/-- `bookedCount` (lines 87-90). -/
def bookedCount (l : List Property) : ℕ :=
  (l.filter (fun p => p.status == PropertyStatus.Booked)).length

end V1

namespace V2

/-- The `Property` type of the second page variant (lines 603-608).
Although the TypeScript annotations claim `name : string` and
`status : PropertyStatus`, the decoder (lines 642-647) reaches these
fields through `??` and an unchecked `as` cast, so at runtime they hold
whatever the raw document held (when present); they are therefore
embedded as `JsVal`. -/
structure Property where
  id : String
  name : JsVal
  pricePerNight : JsNum
  status : JsVal
deriving DecidableEq

/-- The component state of the second variant (lines 614-624); the same
hooks as the first variant. -/
structure AppState where
  properties : List Property
  fetching : Bool
  modalOpen : Bool
  formName : String
  formPrice : String
  formStatus : PropertyStatus
  saving : Bool
  error : Option String
  deleteConfirmId : Option String
  deletingId : Option String
  lastUpdated : Bool
deriving DecidableEq

/-- The initial component state of the second variant. -/
def initState : AppState :=
  { properties := []
    fetching := true
    modalOpen := false
    formName := ""
    formPrice := ""
    formStatus := .Available
    saving := false
    error := none
    deleteConfirmId := none
    deletingId := none
    lastUpdated := false }

/-- Decoding of one raw document in the second variant (lines 642-647):
only a null/undefined field falls back to its default (`"Untitled"`,
`0`, `"Available"`); a present value is kept as-is for `name` and
`status`, and the price is `Number(raw)`, which can be NaN or
negative. -/
def decodeDoc (d : RawDoc) : Property :=
  { id := d.id
    name := nullish d.name (JsVal.vStr "Untitled")
    pricePerNight := toNumber (nullish d.pricePerNight (JsVal.vNum (JsNum.fin 0)))
    status := nullish d.status (JsVal.vStr "Available") }

/-- `fetchProperties` of the second variant (lines 633-659): no
synchronous prefix (neither `fetching` nor `error` is reset before the
call); on success the decoded documents replace `properties`; on
failure an error message is set; `fetching` clears in `finally`. -/
def fetchProperties (s : AppState) (res : Except Unit (List RawDoc)) :
    AppState × List ExtCall :=
  match res with
  | .ok ds =>
    ({ s with properties := ds.map decodeDoc, lastUpdated := true, fetching := false },
     [ExtCall.listAll])
  | .error _ =>
    ({ s with error := some "Failed to load properties.", fetching := false },
     [ExtCall.listAll])

/-- `handleLogout` of the second variant (lines 678-681): `signOut` is
awaited with no `try`; on success the router navigates; on rejection
the navigation is not reached.  State is never touched. -/
def handleLogout (s : AppState) (ok : Bool) : AppState × List ExtCall :=
  if ok then (s, [ExtCall.signOutCall, ExtCall.navigate "/login"])
  else (s, [ExtCall.signOutCall])

/-- `handleAddProperty` of the second variant (lines 690-717): the only
guard is `!formName.trim() || !formPrice`, a silent early return that
sets no error.  Past the guard, `addDoc` is issued with
`Number(formPrice)` whatever it is (no finiteness or sign check, no
`createdAt`); on success the new record is appended and the form reset;
on failure an error message is set. -/
def handleAddProperty (s : AppState) (res : Except Unit String) :
    AppState × List ExtCall :=
  if jsTrim s.formName = "" ∨ s.formPrice = "" then (s, [])
  else
    let s1 := { s with saving := true, error := none }
    let price := strToNumber s.formPrice
    let call := ExtCall.insert (jsTrim s.formName) price s.formStatus.toStr false
    match res with
    | .ok newId =>
      ({ s1 with
          properties := s1.properties ++
            [{ id := newId, name := JsVal.vStr (jsTrim s.formName)
               pricePerNight := price, status := JsVal.vStr s.formStatus.toStr }]
          lastUpdated := true
          modalOpen := false
          formName := ""
          formPrice := ""
          formStatus := .Available
          error := none
          saving := false }, [call])
    | .error _ =>
      ({ s1 with error := some "Failed to add property. Please try again."
                 saving := false }, [call])

/-- The synchronous prefix of the second variant's
`handleDeleteProperty` (line 720): only the deleting marker is set (the
error is not cleared here); `properties` is untouched while the remote
delete is in flight. -/
def deleteStart (s : AppState) (id : String) : AppState :=
  { s with deletingId := some id }

/-- The continuation once `deleteDoc` resolves (lines 721-733). -/
def deleteRes (s : AppState) (id : String) (ok : Bool) : AppState :=
  if ok then
    { s with properties := s.properties.filter (fun p => p.id != id)
             lastUpdated := true
             deletingId := none
             deleteConfirmId := none }
  else
    { s with error := some "Failed to delete property."
             deletingId := none
             deleteConfirmId := none }

/-- `handleDeleteProperty` of the second variant (lines 719-734). -/
def handleDeleteProperty (s : AppState) (id : String) (ok : Bool) :
    AppState × List ExtCall :=
  (deleteRes (deleteStart s id) id ok, [ExtCall.delete id])

/-- The "request" phase of a delete in the second variant (line 902). -/
def requestDelete (s : AppState) (id : String) : AppState × List ExtCall :=
  ({ s with deleteConfirmId := some id }, [])

/-- The "cancel" action of the confirmation modal (line 946). -/
def cancelDelete (s : AppState) : AppState × List ExtCall :=
  ({ s with deleteConfirmId := none }, [])

/-- `availableCount` of the second variant (lines 667-670): a strict
string comparison of the runtime status value with `"Available"`. -/
def availableCount (l : List Property) : ℕ :=
  (l.filter (fun p => p.status == JsVal.vStr "Available")).length

/-- `bookedCount` of the second variant (lines 671-674). -/
def bookedCount (l : List Property) : ℕ :=
  (l.filter (fun p => p.status == JsVal.vStr "Booked")).length

/-- States of the second variant reachable from the initial state by
the component's own transitions: a load resolving with an arbitrary
store response, an add, a confirmed delete with either outcome, the
request/cancel phases of a delete, a logout, and the form-field
inputs. -/
inductive Reachable : AppState → Prop where
  | init : Reachable initState
  | fetch (s : AppState) (res : Except Unit (List RawDoc)) :
      Reachable s → Reachable (fetchProperties s res).1
  | add (s : AppState) (res : Except Unit String) :
      Reachable s → Reachable (handleAddProperty s res).1
  | del (s : AppState) (id : String) (ok : Bool) :
      Reachable s → Reachable (handleDeleteProperty s id ok).1
  | reqDel (s : AppState) (id : String) :
      Reachable s → Reachable (requestDelete s id).1
  | cancelDel (s : AppState) :
      Reachable s → Reachable (cancelDelete s).1
  | logout (s : AppState) (ok : Bool) :
      Reachable s → Reachable (handleLogout s ok).1
  | setName (s : AppState) (v : String) :
      Reachable s → Reachable { s with formName := v }
  | setPrice (s : AppState) (v : String) :
      Reachable s → Reachable { s with formPrice := v }
  | setStatus (s : AppState) (v : PropertyStatus) :
      Reachable s → Reachable { s with formStatus := v }
  | setModal (s : AppState) (b : Bool) :
      Reachable s → Reachable { s with modalOpen := b }

end V2

/-- A variant-1 state holding the single record `r1`. -/
def c1State : V1.AppState :=
  { V1.initState with
    properties := [{ id := "r1", name := "Lakeview"
                     pricePerNight := JsNum.fin 120
                     status := PropertyStatus.Available }] }

/-- A variant-2 state whose form holds the name `Lakeview` and the
negative price string `-5`. -/
def c3BadState : V2.AppState :=
  { V2.initState with formName := "Lakeview", formPrice := "-5" }

/-- A variant-1 state whose form holds the negative price string `-5`. -/
def c3Price1 : V1.AppState :=
  { V1.initState with formName := "Lakeview", formPrice := "-5" }

/-- A variant-2 state whose form name is blank after trimming. -/
def c3Name2 : V2.AppState :=
  { V2.initState with formName := "   ", formPrice := "10" }

/-- A variant-1 state with a valid form (`Lakeview`, price `120`). -/
def c4State1 : V1.AppState :=
  { V1.initState with formName := "Lakeview", formPrice := "120" }

/-- A variant-2 state with a valid form (`Lakeview`, price `120`). -/
def c4State2 : V2.AppState :=
  { V2.initState with formName := "Lakeview", formPrice := "120" }

/-- A variant-1 state with a valid form, for the create-failure case. -/
def c5State1 : V1.AppState :=
  { V1.initState with formName := "Villa", formPrice := "80" }

/-- A variant-2 state with a valid form, for the create-failure case. -/
def c5State2 : V2.AppState :=
  { V2.initState with formName := "Villa", formPrice := "80" }

/-- A raw document whose price and status are present but malformed. -/
def c6BadDoc : RawDoc :=
  { id := "d1", name := JsVal.vStr "Shack"
    pricePerNight := JsVal.vStr "abc", status := JsVal.vStr "Pending" }

/-- A raw document with all fields missing. -/
def c6MissingDoc : RawDoc :=
  { id := "d2", name := JsVal.vUndef
    pricePerNight := JsVal.vUndef, status := JsVal.vUndef }

/-- A raw document whose status is a string outside the enum. -/
def c7BadDoc : RawDoc :=
  { id := "d3", name := JsVal.vStr "Cabin"
    pricePerNight := JsVal.vNum (JsNum.fin 100), status := JsVal.vStr "Pending" }

/-- The variant-2 state reached from the initial state by one load that
returns `c7BadDoc`. -/
def c7BadState : V2.AppState :=
  (V2.fetchProperties V2.initState (.ok [c7BadDoc])).1

/-- A variant-1 state holding one record, for the logout claim. -/
def c9State : V1.AppState :=
  { V1.initState with
    properties := [{ id := "r2", name := "Loft"
                     pricePerNight := JsNum.fin 90
                     status := PropertyStatus.Booked }] }



/-- C1 (amended): in both variants, the confirmed remove issues the
delete request while `records` is still unchanged (the synchronous
prefix only sets the deleting marker), and the local removal is applied
only when the remote delete resolves successfully. -/
theorem claim_C1_amended (s : V1.AppState) (s2 : V2.AppState) (id : String) :
    (V1.deleteStart s id).properties = s.properties ∧
    ((V1.handleDeleteProperty s id true).1).properties
      = s.properties.filter (fun p => p.id != id) ∧
    (V2.deleteStart s2 id).properties = s2.properties ∧
    ((V2.handleDeleteProperty s2 id true).1).properties
      = s2.properties.filter (fun p => p.id != id) :=
  ⟨rfl, rfl, rfl, rfl⟩

/-- C1 (counterexample): the claim that between the issue of the remote
delete and its resolution the record is already absent from `records`
is false: in the state observable while the delete of `r1` is in
flight, `r1` is still present. -/
theorem claim_C1_counterexample :
    ¬ (∀ p ∈ (V1.deleteStart c1State "r1").properties, p.id ≠ "r1") := by
  decide

/-- C2: in both variants, when the store read rejects, `records` after
the failed load equals `records` before the call, the error is set to a
non-null user-facing message, and `fetching` clears regardless of the
outcome. -/
theorem claim_C2 (s : V1.AppState) (s2 : V2.AppState)
    (res : Except Unit (List RawDoc)) :
    (V1.fetchProperties s (.error ())).1.properties = s.properties ∧
    (V1.fetchProperties s (.error ())).1.error
      = some "Could not load properties. Please try again later." ∧
    (V1.fetchProperties s res).1.fetching = false ∧
    (V2.fetchProperties s2 (.error ())).1.properties = s2.properties ∧
    (V2.fetchProperties s2 (.error ())).1.error
      = some "Failed to load properties." ∧
    (V2.fetchProperties s2 res).1.fetching = false := by
  refine ⟨rfl, rfl, ?_, ?_, ?_, ?_⟩ <;> cases res <;> rfl

/-- C3 (counterexample): in the second variant, a create with name
`Lakeview` and price string `-5` is not rejected: the insert is issued
to the store with price `-5`, no error is set, and on success the
record count grows by one. -/
theorem claim_C3_counterexample :
    (V2.handleAddProperty c3BadState (.ok "r1")).2
      = [ExtCall.insert "Lakeview" (JsNum.fin (-5)) "Available" false] ∧
    (V2.handleAddProperty c3BadState (.ok "r1")).1.properties.length
      = c3BadState.properties.length + 1 ∧
    (V2.handleAddProperty c3BadState (.ok "r1")).1.error = none := by
  decide

/-- C3 (amended): in the first variant, a create whose trimmed name is
empty, or whose price string is empty, non-finite or negative, sets a
validation error message, issues no store call, and leaves `records`
unchanged.  In the second variant only an empty trimmed name or empty
price string aborts, silently and without any store call; other invalid
prices are not rejected. -/
theorem claim_C3_amended (s : V1.AppState) (s2 : V2.AppState)
    (res : Except Unit String) :
    (jsTrim s.formName = "" ∨ s.formPrice = "" ∨
        (strToNumber s.formPrice).isFinite = false ∨
        (strToNumber s.formPrice).lt0 = true →
      (V1.handleAddProperty s res).2 = [] ∧
      (V1.handleAddProperty s res).1.properties = s.properties ∧
      (V1.handleAddProperty s res).1.error ≠ none) ∧
    (jsTrim s2.formName = "" ∨ s2.formPrice = "" →
      (V2.handleAddProperty s2 res).1 = s2 ∧
      (V2.handleAddProperty s2 res).2 = []) := by
  constructor
  · intro h
    by_cases hn : jsTrim s.formName = ""
    · simp [V1.handleAddProperty, hn]
    · have hp : s.formPrice = "" ∨ (strToNumber s.formPrice).isFinite = false ∨
          (strToNumber s.formPrice).lt0 = true := by tauto
      simp only [V1.handleAddProperty, if_neg hn, if_pos hp]
      simp
  · intro h
    simp [V2.handleAddProperty, h]

/-- C3 (witness): the amended claim evaluated at the price string `-5`
for the first variant and at a blank name for the second variant. -/
theorem claim_C3_amended_witness :
    ((V1.handleAddProperty c3Price1 (.ok "r9")).2 = [] ∧
     (V1.handleAddProperty c3Price1 (.ok "r9")).1.properties
       = c3Price1.properties ∧
     (V1.handleAddProperty c3Price1 (.ok "r9")).1.error ≠ none) ∧
    ((V2.handleAddProperty c3Name2 (.ok "r9")).1 = c3Name2 ∧
     (V2.handleAddProperty c3Name2 (.ok "r9")).2 = []) :=
  ⟨(claim_C3_amended c3Price1 c3Name2 (.ok "r9")).1 (by decide),
   (claim_C3_amended c3Price1 c3Name2 (.ok "r9")).2 (by decide)⟩

/-- C4: in both variants, a create with valid input whose insert
resolves with a new id appends exactly one new record (the new id, the
trimmed name, the coerced price, the chosen status) to the end of
`records`, leaving every other element unchanged, and the issued insert
carries the same trimmed name and coerced price. -/
theorem claim_C4 (s : V1.AppState) (s2 : V2.AppState) (nid : String)
    (h1 : jsTrim s.formName ≠ "") (h2 : s.formPrice ≠ "")
    (h3 : (strToNumber s.formPrice).isFinite = true)
    (h4 : (strToNumber s.formPrice).lt0 = false)
    (g1 : jsTrim s2.formName ≠ "") (g2 : s2.formPrice ≠ "") :
    (V1.handleAddProperty s (.ok nid)).1.properties
      = s.properties ++
        [{ id := nid, name := jsTrim s.formName
           pricePerNight := strToNumber s.formPrice, status := s.formStatus }] ∧
    (V1.handleAddProperty s (.ok nid)).2
      = [ExtCall.insert (jsTrim s.formName) (strToNumber s.formPrice)
           s.formStatus.toStr true] ∧
    (V2.handleAddProperty s2 (.ok nid)).1.properties
      = s2.properties ++
        [{ id := nid, name := JsVal.vStr (jsTrim s2.formName)
           pricePerNight := strToNumber s2.formPrice
           status := JsVal.vStr s2.formStatus.toStr }] ∧
    (V2.handleAddProperty s2 (.ok nid)).2
      = [ExtCall.insert (jsTrim s2.formName) (strToNumber s2.formPrice)
           s2.formStatus.toStr false] := by
  have hv1 : ¬ (s.formPrice = "" ∨ (strToNumber s.formPrice).isFinite = false ∨
      (strToNumber s.formPrice).lt0 = true) := by
    simp [h2, h3, h4]
  have hv2 : ¬ (jsTrim s2.formName = "" ∨ s2.formPrice = "") := by
    simp [g1, g2]
  simp [V1.handleAddProperty, V2.handleAddProperty, h1, hv1, hv2]

/-- C4 (witness): the create claim evaluated at `Lakeview` / `120` with
the store replying `r1`, in both variants. -/
theorem claim_C4_witness :
    (V1.handleAddProperty c4State1 (.ok "r1")).1.properties
      = c4State1.properties ++
        [{ id := "r1", name := jsTrim c4State1.formName
           pricePerNight := strToNumber c4State1.formPrice
           status := c4State1.formStatus }] ∧
    (V1.handleAddProperty c4State1 (.ok "r1")).2
      = [ExtCall.insert (jsTrim c4State1.formName)
           (strToNumber c4State1.formPrice) c4State1.formStatus.toStr true] ∧
    (V2.handleAddProperty c4State2 (.ok "r1")).1.properties
      = c4State2.properties ++
        [{ id := "r1", name := JsVal.vStr (jsTrim c4State2.formName)
           pricePerNight := strToNumber c4State2.formPrice
           status := JsVal.vStr c4State2.formStatus.toStr }] ∧
    (V2.handleAddProperty c4State2 (.ok "r1")).2
      = [ExtCall.insert (jsTrim c4State2.formName)
           (strToNumber c4State2.formPrice) c4State2.formStatus.toStr false] :=
  claim_C4 c4State1 c4State2 "r1" (by decide) (by decide) (by decide)
    (by decide) (by decide) (by decide)

/-- C5: in both variants, a create with valid input whose insert fails
leaves `records` unchanged (no optimistic insert is ever applied) and
sets the error message. -/
theorem claim_C5 (s : V1.AppState) (s2 : V2.AppState)
    (h1 : jsTrim s.formName ≠ "") (h2 : s.formPrice ≠ "")
    (h3 : (strToNumber s.formPrice).isFinite = true)
    (h4 : (strToNumber s.formPrice).lt0 = false)
    (g1 : jsTrim s2.formName ≠ "") (g2 : s2.formPrice ≠ "") :
    (V1.handleAddProperty s (.error ())).1.properties = s.properties ∧
    (V1.handleAddProperty s (.error ())).1.error
      = some "Failed to save property. Please try again." ∧
    (V2.handleAddProperty s2 (.error ())).1.properties = s2.properties ∧
    (V2.handleAddProperty s2 (.error ())).1.error
      = some "Failed to add property. Please try again." := by
  have hv1 : ¬ (s.formPrice = "" ∨ (strToNumber s.formPrice).isFinite = false ∨
      (strToNumber s.formPrice).lt0 = true) := by
    simp [h2, h3, h4]
  have hv2 : ¬ (jsTrim s2.formName = "" ∨ s2.formPrice = "") := by
    simp [g1, g2]
  simp [V1.handleAddProperty, V2.handleAddProperty, h1, hv1, hv2]

/-- C5 (witness): the create-failure claim evaluated at `Villa` / `80`
with the insert rejecting, in both variants. -/
theorem claim_C5_witness :
    (V1.handleAddProperty c5State1 (.error ())).1.properties
      = c5State1.properties ∧
    (V1.handleAddProperty c5State1 (.error ())).1.error
      = some "Failed to save property. Please try again." ∧
    (V2.handleAddProperty c5State2 (.error ())).1.properties
      = c5State2.properties ∧
    (V2.handleAddProperty c5State2 (.error ())).1.error
      = some "Failed to add property. Please try again." :=
  claim_C5 c5State1 c5State2 (by decide) (by decide) (by decide)
    (by decide) (by decide) (by decide)

/-- C6 (counterexample): in the second variant, a raw document whose
price and status are present but malformed decodes to the raw status
`"Pending"` (not `Available`) and the price NaN (not `0`). -/
theorem claim_C6_counterexample :
    (V2.decodeDoc c6BadDoc).status = JsVal.vStr "Pending" ∧
    (V2.decodeDoc c6BadDoc).pricePerNight = JsNum.nan := by
  decide

/-- C6 (amended): the first variant is fully defensive: every decoded
price is finite and non-negative, a price that does not coerce to a
finite non-negative number decodes to `0`, and any status other than
the exact string `"Booked"` decodes to `Available`.  The second variant
defaults only missing (null/undefined) fields: a missing price decodes
to `0` and a missing status to `"Available"`. -/
theorem claim_C6_amended (d : RawDoc) :
    (V1.decodeDoc d).pricePerNight.isFinite = true ∧
    (V1.decodeDoc d).pricePerNight.ge0 = true ∧
    (d.status ≠ JsVal.vStr "Booked" →
      (V1.decodeDoc d).status = PropertyStatus.Available) ∧
    ((toNumber d.pricePerNight).isFinite = false ∨
        (toNumber d.pricePerNight).ge0 = false →
      (V1.decodeDoc d).pricePerNight = JsNum.fin 0) ∧
    ((d.pricePerNight = JsVal.vUndef ∨ d.pricePerNight = JsVal.vNull) →
      (V2.decodeDoc d).pricePerNight = JsNum.fin 0) ∧
    ((d.status = JsVal.vUndef ∨ d.status = JsVal.vNull) →
      (V2.decodeDoc d).status = JsVal.vStr "Available") := by
  have hprice : (V1.decodeDoc d).pricePerNight
      = if (toNumber d.pricePerNight).isFinite = true ∧
            (toNumber d.pricePerNight).ge0 = true
        then toNumber d.pricePerNight else JsNum.fin 0 := rfl
  have hstat : (V1.decodeDoc d).status
      = if d.status = JsVal.vStr "Booked" then PropertyStatus.Booked
        else PropertyStatus.Available := rfl
  refine ⟨?_, ?_, ?_, ?_, ?_, ?_⟩
  · rw [hprice]
    by_cases hc : (toNumber d.pricePerNight).isFinite = true ∧
        (toNumber d.pricePerNight).ge0 = true
    · rw [if_pos hc]; exact hc.1
    · rw [if_neg hc]; rfl
  · rw [hprice]
    by_cases hc : (toNumber d.pricePerNight).isFinite = true ∧
        (toNumber d.pricePerNight).ge0 = true
    · rw [if_pos hc]; exact hc.2
    · rw [if_neg hc]; rfl
  · intro h
    rw [hstat, if_neg h]
  · intro h
    have hc : ¬ ((toNumber d.pricePerNight).isFinite = true ∧
        (toNumber d.pricePerNight).ge0 = true) := by
      rcases h with h | h <;> simp [h]
    rw [hprice, if_neg hc]
  · intro h
    rcases h with h | h <;> simp [V2.decodeDoc, nullish, h, toNumber]
  · intro h
    rcases h with h | h <;> simp [V2.decodeDoc, nullish, h]

/-- C6 (witness): the amended decode claim evaluated at a raw document
with all fields missing, in both variants. -/
theorem claim_C6_amended_witness :
    (V1.decodeDoc c6MissingDoc).pricePerNight.isFinite = true ∧
    (V1.decodeDoc c6MissingDoc).pricePerNight.ge0 = true ∧
    (V1.decodeDoc c6MissingDoc).status = PropertyStatus.Available ∧
    (V1.decodeDoc c6MissingDoc).pricePerNight = JsNum.fin 0 ∧
    (V2.decodeDoc c6MissingDoc).pricePerNight = JsNum.fin 0 ∧
    (V2.decodeDoc c6MissingDoc).status = JsVal.vStr "Available" :=
  ⟨(claim_C6_amended c6MissingDoc).1,
   (claim_C6_amended c6MissingDoc).2.1,
   (claim_C6_amended c6MissingDoc).2.2.1 (by decide),
   (claim_C6_amended c6MissingDoc).2.2.2.1 (by decide),
   (claim_C6_amended c6MissingDoc).2.2.2.2.1 (by decide),
   (claim_C6_amended c6MissingDoc).2.2.2.2.2 (by decide)⟩

/-- Every variant-1 record list is partitioned by its closed status
enum: the Available and Booked counts sum to the length. -/
theorem v1_counts_partition (l : List V1.Property) :
    V1.availableCount l + V1.bookedCount l = l.length := by
  induction l with
  | nil => rfl
  | cons p t ih =>
    cases hp : p.status <;>
      simp [V1.availableCount, V1.bookedCount, List.filter_cons, hp] at ih ⊢ <;>
      omega

/-- C7 (amended): in the first variant the count invariant holds in
every state (so in every reachable one): available + booked = total.
In the second variant it fails on a reachable state: loading a document
whose status is outside the enum yields a record counted in neither
bucket. -/
theorem claim_C7_amended :
    (∀ s : V1.AppState,
      V1.availableCount s.properties + V1.bookedCount s.properties
        = V1.totalProperties s.properties) ∧
    (∃ s : V2.AppState, V2.Reachable s ∧
      V2.availableCount s.properties + V2.bookedCount s.properties
        ≠ s.properties.length) := by
  constructor
  · intro s
    exact v1_counts_partition s.properties
  · exact ⟨c7BadState, V2.Reachable.fetch _ _ V2.Reachable.init, by decide⟩

/-- C7 (counterexample): a reachable variant-2 state (one load that
returns a document with status `"Pending"`) in which available (0)
plus booked (0) differs from total (1). -/
theorem claim_C7_counterexample :
    V2.Reachable c7BadState ∧
    V2.availableCount c7BadState.properties +
        V2.bookedCount c7BadState.properties
      ≠ c7BadState.properties.length :=
  ⟨V2.Reachable.fetch _ _ V2.Reachable.init, by decide⟩

/-- C8: the request phase of a delete only records the pending id — it
leaves `records` unchanged and issues no store call; the confirmed
delete issues exactly the delete call for that id, and on success the
record with that id is absent from `records`. -/
theorem claim_C8 (s : V1.AppState) (id : String) :
    (V1.requestDelete s id).1.properties = s.properties ∧
    (V1.requestDelete s id).2 = [] ∧
    (V1.requestDelete s id).1.deleteConfirmId = some id ∧
    (V1.handleDeleteProperty s id true).2 = [ExtCall.delete id] ∧
    (V1.handleDeleteProperty s id true).1.properties.all
      (fun p => p.id != id) = true := by
  refine ⟨rfl, rfl, rfl, rfl, ?_⟩
  simp only [V1.handleDeleteProperty, V1.deleteRes, V1.deleteStart, if_pos rfl]
  simp [List.all_eq_true, List.mem_filter]

/-- C9 (counterexample): the logout handler does not clear the records
list: after a successful logout from a state holding one record, the
list is still non-empty. -/
theorem claim_C9_counterexample :
    (V1.handleLogout c9State true).1.properties ≠ [] := by
  decide

/-- C9 (amended): in both variants the logout handler calls the auth
sign-out exactly once and, on success, then navigates to the login
route; it leaves the component state — in particular `records` —
entirely unchanged rather than clearing it. -/
theorem claim_C9_amended (s : V1.AppState) (s2 : V2.AppState) (ok : Bool) :
    (V1.handleLogout s ok).2.count ExtCall.signOutCall = 1 ∧
    (V1.handleLogout s ok).1 = s ∧
    (V1.handleLogout s true).2
      = [ExtCall.signOutCall, ExtCall.navigate "/login"] ∧
    (V2.handleLogout s2 ok).2.count ExtCall.signOutCall = 1 ∧
    (V2.handleLogout s2 ok).1 = s2 ∧
    (V2.handleLogout s2 true).2
      = [ExtCall.signOutCall, ExtCall.navigate "/login"] := by
  cases ok <;> exact ⟨rfl, rfl, rfl, rfl, rfl, rfl⟩

/-- C10: in both variants, when the remote delete of a confirmed remove
fails, `records` is unchanged (the record is still present, since the
local removal only runs on success), the error message is set, and the
deleting marker and pending-delete id are nevertheless cleared. -/
theorem claim_C10 (s : V1.AppState) (s2 : V2.AppState) (id : String) :
    (V1.handleDeleteProperty s id false).1.properties = s.properties ∧
    (V1.handleDeleteProperty s id false).1.deletingId = none ∧
    (V1.handleDeleteProperty s id false).1.deleteConfirmId = none ∧
    (V1.handleDeleteProperty s id false).1.error
      = some "Could not delete property. Please try again." ∧
    (V2.handleDeleteProperty s2 id false).1.properties = s2.properties ∧
    (V2.handleDeleteProperty s2 id false).1.deletingId = none ∧
    (V2.handleDeleteProperty s2 id false).1.deleteConfirmId = none ∧
    (V2.handleDeleteProperty s2 id false).1.error
      = some "Failed to delete property." :=
  ⟨rfl, rfl, rfl, rfl, rfl, rfl, rfl, rfl⟩
